import Mathlib

/-!
Verification of the `mosrs-setup` repository (files `mosrs/setup.py` and
`mosrs/access.py`) against its natural-language specification.

The Python code is shallowly embedded: file contents are `List Char`,
interactive answers are `String`, the effect of `gpg_startup` on the file
system is a pure function on a two-file state (the startup script and its
`.old` backup), and the `main` orchestrator is a pure function from an
environment of external results to a trace of observable actions plus a
terminal outcome.
-/

namespace Mosrs

/-! ## Substring search (embedding of `grep pat file` and `str.find`)

`setup.py` detects prior patching and the boilerplate anchor with
`grep` (lines 89-94 and 101-105) and locates the insertion point with
`str.find` (line 111).  Both patterns contain no newline and no regex
metacharacter, so `grep` succeeding on the file is exactly "the pattern
occurs as a contiguous substring of the content", and `find` returns the
least index at which the pattern occurs. -/

/-- Whether `pat` occurs at the very start of `hay`. -/
def startsWithL : List Char → List Char → Bool
  | _, [] => true
  | [], _ :: _ => false
  | a :: hay, b :: pat => a = b && startsWithL hay pat

/-- Least index at which `pat` occurs in `hay` (Python `hay.find(pat)`),
`none` when there is no occurrence. -/
def fsub : List Char → List Char → Option Nat
  | hay, pat =>
    match hay with
    | [] => if pat.isEmpty then some 0 else none
    | _ :: t => if startsWithL hay pat then some 0 else (fsub t pat).map (· + 1)

/-- Whether `pat` occurs anywhere in `hay` (grep exit status 0). -/
def hasSub (hay pat : List Char) : Bool := (fsub hay pat).isSome

theorem startsWithL_iff (hay pat : List Char) :
    startsWithL hay pat = true ↔ ∃ t, hay = pat ++ t := by
  induction pat generalizing hay with
  | nil => simp [startsWithL]
  | cons b bs ih =>
    cases hay with
    | nil => simp [startsWithL]
    | cons a t =>
      simp only [startsWithL, Bool.and_eq_true, decide_eq_true_eq, ih, List.cons_append]
      constructor
      · rintro ⟨rfl, u, rfl⟩; exact ⟨u, rfl⟩
      · rintro ⟨u, h⟩
        injection h with h1 h2
        exact ⟨h1, u, h2⟩

theorem fsub_some_le (hay pat : List Char) (i : Nat) (h : fsub hay pat = some i) :
    i ≤ hay.length := by
  induction hay generalizing i with
  | nil =>
    simp only [fsub] at h
    split at h
    · simp_all
    · simp_all
  | cons a t ih =>
    simp only [fsub] at h
    split at h
    · obtain rfl : (0 : Nat) = i := by simpa using h
      simp
    · cases hm : fsub t pat with
      | none => simp [hm] at h
      | some j =>
        obtain rfl : j + 1 = i := by simpa [hm] using h
        have := ih j hm
        simp
        omega

theorem fsub_spec (hay pat : List Char) (i : Nat) (h : fsub hay pat = some i) :
    startsWithL (hay.drop i) pat = true ∧
      ∀ j < i, startsWithL (hay.drop j) pat = false := by
  induction hay generalizing i with
  | nil =>
    simp only [fsub] at h
    split at h
    · rename_i hp
      cases h
      refine ⟨?_, by omega⟩
      cases pat with
      | nil => rfl
      | cons b bs => simp [List.isEmpty] at hp
    · exact absurd h (by simp)
  | cons a t ih =>
    simp only [fsub] at h
    split at h
    · rename_i hs
      cases h
      exact ⟨hs, by omega⟩
    · rename_i hs
      cases hm : fsub t pat with
      | none => simp [hm] at h
      | some j =>
        obtain rfl : j + 1 = i := by simpa [hm] using h
        obtain ⟨h1, h2⟩ := ih j hm
        refine ⟨h1, ?_⟩
        intro k hk
        cases k with
        | zero => simpa using Bool.eq_false_iff.mpr (fun hc => by simp [hc] at hs)
        | succ k => exact h2 k (by omega)

theorem hasSub_iff (hay pat : List Char) :
    hasSub hay pat = true ↔ ∃ i, startsWithL (hay.drop i) pat = true := by
  constructor
  · intro h
    obtain ⟨i, hi⟩ := Option.isSome_iff_exists.mp h
    exact ⟨i, (fsub_spec hay pat i hi).1⟩
  · rintro ⟨i, hi⟩
    by_contra hc
    have hnone : fsub hay pat = none := by
      cases hm : fsub hay pat with
      | none => rfl
      | some j => simp [hasSub, hm] at hc
    clear hc
    induction hay generalizing i with
    | nil =>
      simp only [fsub] at hnone
      split at hnone
      · simp_all
      · rename_i hp
        cases pat with
        | nil => simp [List.isEmpty] at hp
        | cons b bs => cases i <;> simp [startsWithL] at hi
    | cons a t iht =>
      simp only [fsub] at hnone
      split at hnone
      · simp_all
      · rename_i hs
        cases hm : fsub t pat with
        | none =>
          cases i with
          | zero => simp_all
          | succ k => exact iht k (by simpa using hi) hm
        | some j => simp [hm] at hnone

/-! ## The startup-script patcher (`gpg_startup`, `setup.py` lines 57-127) -/

/-- Content of the `gpg_agent_script` snippet after `textwrap.dedent`
(`setup.py` lines 61-79): the common four-space margin is removed and the
final whitespace-only line becomes empty. -/
def gpg_agent_script : List Char :=
  ("\n# mosrs-setup gpg_agent_script: DO NOT EDIT BETWEEN HERE AND END\nfunction export_gpg_environ \x7b\n    export GPG_TTY=$(tty)\n    export GPG_AGENT_INFO=\"$(gpgconf --list-dirs agent-socket):0:1\"\n\x7d\nfunction start_gpg_agent \x7b\n    mkdir -p $HOME/.gnupg\n    gpg-connect-agent /bye\n    export_gpg_environ\n\x7d\nif in_interactive_shell; then\n    if in_login_shell; then\n        start_gpg_agent\n    fi\nfi\n# mosrs-setup gpg_agent_script: END\n\n").toList

/-- The pattern grepped for to detect prior patching (`setup.py` line 90). -/
def agentMarker : List Char := ("mosrs-setup gpg_agent_script").toList

/-- The NCI boilerplate anchor line (`setup.py` line 100). -/
def boilerplate : List Char := ("if in_interactive_shell; then").toList

/-- The full sentinel marker line that delimits the managed region. -/
def sentinelLine : List Char :=
  ("# mosrs-setup gpg_agent_script: DO NOT EDIT BETWEEN HERE AND END").toList

/-- State of the two files `gpg_startup` touches: `~/.bashrc` and its
sibling backup `~/.bashrc.old` (`none` = the file does not exist). -/
structure FS where
  startup : Option (List Char)
  backup : Option (List Char)
  deriving DecidableEq, Repr

/-- Result of one `gpg_startup` run: the startup file was missing
(`SetupError` after a helpdesk message, line 83-86), the marker was already
present so nothing was done (line 93-94), or a real patch was performed
(`SetupError` after the re-login message, lines 105-127). -/
inductive PatchOutcome
  | missingScript
  | noopAlready
  | patchedFile
  deriving DecidableEq, Repr

/-- Pure embedding of the file-system effect of `gpg_startup`
(`setup.py` lines 80-119): grep for the marker; if absent, grep for the
boilerplate anchor; if found, rename the original to `.old` and write the
original with the snippet inserted at the anchor's first index (lines
105-114); otherwise copy the original to `.old` and append the snippet
(lines 115-119). -/
def gpg_startup_fs (fs : FS) : FS × PatchOutcome :=
  match fs.startup with
  | none => (fs, .missingScript)
  | some content =>
    if hasSub content agentMarker then (fs, .noopAlready)
    else
      match fsub content boilerplate with
      | some i =>
        (⟨some (content.take i ++ gpg_agent_script ++ content.drop i),
          some content⟩, .patchedFile)
      | none =>
        (⟨some (content ++ gpg_agent_script), some content⟩, .patchedFile)

/-- New startup content produced in the insert-before-anchor branch
(`setup.py` line 112) when the anchor's first occurrence is at index `i`. -/
def insertedContent (content : List Char) (i : Nat) : List Char :=
  content.take i ++ gpg_agent_script ++ content.drop i

/-- States of the file system that can be observed at any point during a
mutating run of `gpg_startup` on original content `c`, including points
where a write was interrupted partway.  Each constructor corresponds to a
point in `setup.py`:
`pre` — before any mutation (up to line 105);
`renamed` — after `rename(startup_path, old_path)` (line 107), an atomic
operation, before the new startup file is opened;
`writingNew` — while `open(startup_path, 'w')` / `write(new)` runs (lines
113-114): `w` is whatever has reached the disk so far (`[]` right after
the truncating open, a proper prefix on interruption, all of `new` on
completion);
`copyingBackup` — while `copy2(startup_path, old_path)` runs (line 116):
`w` is the portion of the backup written so far;
`appending` — while the append `write` runs (lines 118-119): `w` is the
portion of the snippet appended so far. -/
inductive PatchState (c : List Char) : FS → Prop
  | pre : PatchState c ⟨some c, none⟩
  | renamed (i : Nat) (hm : hasSub c agentMarker = false)
      (hb : fsub c boilerplate = some i) :
      PatchState c ⟨none, some c⟩
  | writingNew (i : Nat) (w : List Char) (hm : hasSub c agentMarker = false)
      (hb : fsub c boilerplate = some i)
      (hw : ∃ t, insertedContent c i = w ++ t) :
      PatchState c ⟨some w, some c⟩
  | copyingBackup (w : List Char) (hm : hasSub c agentMarker = false)
      (hb : fsub c boilerplate = none) (hw : ∃ t, c = w ++ t) :
      PatchState c ⟨some c, some w⟩
  | appending (w : List Char) (hm : hasSub c agentMarker = false)
      (hb : fsub c boilerplate = none)
      (hw : ∃ t, gpg_agent_script = w ++ t) :
      PatchState c ⟨some (c ++ w), some c⟩

/-- The completed-run states of `PatchState` agree with the pure
function: a completed mutating run ends exactly in the state
`gpg_startup_fs` computes. -/
theorem gpg_startup_fs_reachable (c : List Char)
    (hm : hasSub c agentMarker = false) :
    PatchState c (gpg_startup_fs ⟨some c, none⟩).1 := by
  cases hb : fsub c boilerplate with
  | some i =>
    have : gpg_startup_fs ⟨some c, none⟩ =
        (⟨some (insertedContent c i), some c⟩, .patchedFile) := by
      simp [gpg_startup_fs, hm, hb, insertedContent]
    rw [this]
    exact PatchState.writingNew i _ hm hb ⟨[], by simp⟩
  | none =>
    have : gpg_startup_fs ⟨some c, none⟩ =
        (⟨some (c ++ gpg_agent_script), some c⟩, .patchedFile) := by
      simp [gpg_startup_fs, hm, hb]
    rw [this]
    exact PatchState.appending _ hm hb ⟨[], by simp⟩

theorem hasSub_of_decomp (hay p mid q : List Char)
    (h : hasSub hay (p ++ mid ++ q) = true) : hasSub hay mid = true := by
  rw [hasSub_iff] at h ⊢
  obtain ⟨i, hi⟩ := h
  rw [startsWithL_iff] at hi
  obtain ⟨t, ht⟩ := hi
  refine ⟨i + p.length, ?_⟩
  rw [startsWithL_iff]
  refine ⟨q ++ t, ?_⟩
  have hdd : hay.drop (i + p.length) = (hay.drop i).drop p.length := by
    rw [List.drop_drop]
  rw [hdd, ht, List.append_assoc, List.append_assoc, List.drop_left]

theorem startsWithL_of_take (l pat : List Char) (n : Nat)
    (h : startsWithL (l.take n) pat = true) : startsWithL l pat = true := by
  rw [startsWithL_iff] at h ⊢
  obtain ⟨t, ht⟩ := h
  exact ⟨t ++ l.drop n, by rw [← List.append_assoc, ← ht, List.take_append_drop]⟩

theorem hasSub_take_false (c pat : List Char) (i : Nat) (hp : pat ≠ [])
    (h : fsub c pat = some i) : hasSub (c.take i) pat = false := by
  by_contra hc
  rw [Bool.not_eq_false, hasSub_iff] at hc
  obtain ⟨j, hj⟩ := hc
  rw [List.drop_take] at hj
  have hji : j < i := by
    by_contra hji
    push_neg at hji
    have : i - j = 0 := by omega
    rw [this, List.take_zero] at hj
    cases pat with
    | nil => exact hp rfl
    | cons b bs => simp [startsWithL] at hj
  have hstart : startsWithL (c.drop j) pat = true :=
    startsWithL_of_take _ _ _ hj
  have := (fsub_spec c pat i h).2 j hji
  rw [this] at hstart
  cases hstart

/-- Claim C1: during every mutating run of `gpg_startup`, the original
startup content is always recoverable from the startup file or the `.old`
backup, and whenever the startup file no longer holds the original (after
the rename, or during any write of the new content), the backup does —
so no interruption or write failure leaves zero valid copies, and a write
failure after the backup was taken never loses the backup. -/
theorem gpg_startup_backup_safety (c : List Char) (s : FS)
    (h : PatchState c s) :
    (s.startup = some c ∨ s.backup = some c) ∧
      (s.startup ≠ some c → s.backup = some c) := by
  cases h with
  | pre => exact ⟨Or.inl rfl, fun hc => absurd rfl hc⟩
  | renamed i hm hb => exact ⟨Or.inr rfl, fun _ => rfl⟩
  | writingNew i w hm hb hw => exact ⟨Or.inr rfl, fun _ => rfl⟩
  | copyingBackup w hm hb hw => exact ⟨Or.inl rfl, fun hc => absurd rfl hc⟩
  | appending w hm hb hw => exact ⟨Or.inr rfl, fun _ => rfl⟩

/-- Witness for C1 at a concrete pre-mutation state. -/
theorem gpg_startup_backup_safety_witness :
    ((FS.mk (some ['a']) none).startup = some ['a'] ∨
      (FS.mk (some ['a']) none).backup = some ['a']) ∧
      ((FS.mk (some ['a']) none).startup ≠ some ['a'] →
        (FS.mk (some ['a']) none).backup = some ['a']) :=
  gpg_startup_backup_safety ['a'] ⟨some ['a'], none⟩ PatchState.pre

/-- Claim C4: `gpg_startup` is idempotent — on a startup file already
containing the sentinel marker line it is a no-op success: the file system
(startup file and backup alike) is byte-identical before and after. -/
theorem gpg_startup_idempotent (content : List Char) (b : Option (List Char))
    (h : hasSub content sentinelLine = true) :
    gpg_startup_fs ⟨some content, b⟩ = (⟨some content, b⟩, .noopAlready) := by
  have hdec : sentinelLine =
      ("# ").toList ++ agentMarker ++
        (": DO NOT EDIT BETWEEN HERE AND END").toList := by decide
  rw [hdec] at h
  have hm := hasSub_of_decomp _ _ _ _ h
  simp [gpg_startup_fs, hm]

/-- Witness for C4: a file that is exactly the sentinel line. -/
theorem gpg_startup_idempotent_witness :
    gpg_startup_fs ⟨some sentinelLine, none⟩ =
      (⟨some sentinelLine, none⟩, .noopAlready) :=
  gpg_startup_idempotent sentinelLine none (by decide)

/-- Claim C10: the already-patched check is a plain substring search — any
startup file whose text contains `"mosrs-setup gpg_agent_script"` anywhere,
even outside a well-formed managed block, gets a no-op success: the file is
left byte-identical and the backup is untouched (none is created). -/
theorem gpg_startup_noop_on_marker (content : List Char)
    (b : Option (List Char)) (h : hasSub content agentMarker = true) :
    gpg_startup_fs ⟨some content, b⟩ = (⟨some content, b⟩, .noopAlready) := by
  simp [gpg_startup_fs, h]

/-- Witness for C10: the bare grep pattern inside unrelated text, with no
sentinel pair and no managed block, and no pre-existing backup. -/
theorem gpg_startup_noop_on_marker_witness :
    gpg_startup_fs ⟨some ("x mosrs-setup gpg_agent_script y").toList, none⟩ =
      (⟨some ("x mosrs-setup gpg_agent_script y").toList, none⟩,
        .noopAlready) :=
  gpg_startup_noop_on_marker _ none (by decide)

/-- Claim C5: on an unpatched startup file, when the boilerplate anchor is
present the patched output is the original split at the anchor's first
occurrence with the snippet inserted strictly before it (the tail starts
with the anchor and no anchor occurrence lies in the head); when the anchor
is absent the output is exactly the original with the snippet appended. -/
theorem gpg_startup_insertion (content : List Char)
    (hm : hasSub content agentMarker = false) :
    (∀ i, fsub content boilerplate = some i →
      gpg_startup_fs ⟨some content, none⟩ =
        (⟨some (content.take i ++ gpg_agent_script ++ content.drop i),
          some content⟩, .patchedFile) ∧
      content.take i ++ content.drop i = content ∧
      startsWithL (content.drop i) boilerplate = true ∧
      hasSub (content.take i) boilerplate = false) ∧
    (fsub content boilerplate = none →
      gpg_startup_fs ⟨some content, none⟩ =
        (⟨some (content ++ gpg_agent_script), some content⟩,
          .patchedFile)) := by
  constructor
  · intro i hb
    refine ⟨by simp [gpg_startup_fs, hm, hb], List.take_append_drop i content,
      (fsub_spec content boilerplate i hb).1, ?_⟩
    exact hasSub_take_false content boilerplate i (by decide) hb
  · intro hb
    simp [gpg_startup_fs, hm, hb]

/-- Witness for C5: a concrete file containing the anchor at index 2. -/
theorem gpg_startup_insertion_witness :
    gpg_startup_fs
        ⟨some ("A\nif in_interactive_shell; then\nB").toList, none⟩ =
      (⟨some (("A\nif in_interactive_shell; then\nB").toList.take 2 ++
          gpg_agent_script ++
          ("A\nif in_interactive_shell; then\nB").toList.drop 2),
        some ("A\nif in_interactive_shell; then\nB").toList⟩,
        .patchedFile) :=
  (((gpg_startup_insertion ("A\nif in_interactive_shell; then\nB").toList
    (by decide)).1) 2 (by decide)).1

/-! ## MD5 (embedding of `hashlib.md5`, used by `access.py` lines 26 and 31)

`hashlib` is an external library; MD5 itself is a fixed public algorithm
(RFC 1321), embedded here over byte lists so that the key derivation of
`access.py` is executable.  Machine words are `Nat` reduced mod `2^32`. -/

/-- Reduce to a 32-bit word. -/
def w32 (n : Nat) : Nat := n % 4294967296

/-- 32-bit addition. -/
def wadd (a b : Nat) : Nat := (a + b) % 4294967296

/-- 32-bit complement. -/
def wnot (x : Nat) : Nat := 4294967295 - x % 4294967296

/-- 32-bit rotate left: for `x < 2^32` the shifted-out high bits and the
shifted-in low bits are disjoint, so the OR is an addition. -/
def rotl (x s : Nat) : Nat :=
  (x % 4294967296 * 2 ^ s + x % 4294967296 / 2 ^ (32 - s)) % 4294967296

/-- The 64 MD5 round constants `floor(abs(sin(i+1)) * 2^32)`. -/
def kTable : List Nat :=
  [3614090360, 3905402710, 606105819, 3250441966, 4118548399, 1200080426,
   2821735955, 4249261313, 1770035416, 2336552879, 4294925233, 2304563134,
   1804603682, 4254626195, 2792965006, 1236535329, 4129170786, 3225465664,
   643717713, 3921069994, 3593408605, 38016083, 3634488961, 3889429448,
   568446438, 3275163606, 4107603335, 1163531501, 2850285829, 4243563512,
   1735328473, 2368359562, 4294588738, 2272392833, 1839030562, 4259657740,
   2763975236, 1272893353, 4139469664, 3200236656, 681279174, 3936430074,
   3572445317, 76029189, 3654602809, 3873151461, 530742520, 3299628645,
   4096336452, 1126891415, 2878612391, 4237533241, 1700485571, 2399980690,
   4293915773, 2240044497, 1873313359, 4264355552, 2734768916, 1309151649,
   4149444226, 3174756917, 718787259, 3951481745]

/-- The 64 MD5 per-round left-rotation amounts. -/
def sTable : List Nat :=
  [7, 12, 17, 22, 7, 12, 17, 22, 7, 12, 17, 22, 7, 12, 17, 22,
   5, 9, 14, 20, 5, 9, 14, 20, 5, 9, 14, 20, 5, 9, 14, 20,
   4, 11, 16, 23, 4, 11, 16, 23, 4, 11, 16, 23, 4, 11, 16, 23,
   6, 10, 15, 21, 6, 10, 15, 21, 6, 10, 15, 21, 6, 10, 15, 21]

/-- Little-endian 32-bit word `j` of a 64-byte chunk. -/
def leWord (chunk : List Nat) (j : Nat) : Nat :=
  chunk.getD (4 * j) 0 + 256 * chunk.getD (4 * j + 1) 0 +
    65536 * chunk.getD (4 * j + 2) 0 + 16777216 * chunk.getD (4 * j + 3) 0

/-- One MD5 operation (round `i`) on the state `(a, b, c, d)`. -/
def md5round (m : Nat → Nat) (st : Nat × Nat × Nat × Nat) (i : Nat) :
    Nat × Nat × Nat × Nat :=
  let a := st.1
  let b := st.2.1
  let c := st.2.2.1
  let d := st.2.2.2
  let f :=
    if i < 16 then b &&& c ||| wnot b &&& d
    else if i < 32 then d &&& b ||| wnot d &&& c
    else if i < 48 then b ^^^ c ^^^ d
    else c ^^^ (b ||| wnot d)
  let g :=
    if i < 16 then i
    else if i < 32 then (5 * i + 1) % 16
    else if i < 48 then (3 * i + 5) % 16
    else 7 * i % 16
  let f2 := (f + a + kTable.getD i 0 + m g) % 4294967296
  (d, wadd b (rotl f2 (sTable.getD i 0)), b, c)

/-- Process one 64-byte chunk. -/
def md5chunk (st : Nat × Nat × Nat × Nat) (chunk : List Nat) :
    Nat × Nat × Nat × Nat :=
  let r := (List.range 64).foldl (md5round (leWord chunk)) st
  (wadd st.1 r.1, wadd st.2.1 r.2.1, wadd st.2.2.1 r.2.2.1,
    wadd st.2.2.2 r.2.2.2)

/-- Little-endian 8-byte encoding of the 64-bit message bit length. -/
def le8 (n : Nat) : List Nat :=
  [n % 256, n / 256 % 256, n / 65536 % 256, n / 16777216 % 256,
   n / 4294967296 % 256, n / 1099511627776 % 256,
   n / 281474976710656 % 256, n / 72057594037927936 % 256]

/-- MD5 padding: a `0x80` byte, zeros to 56 mod 64, then the bit length. -/
def padMsg (msg : List Nat) : List Nat :=
  let r := (msg.length + 1) % 64
  msg ++ [128] ++ List.replicate ((120 - r) % 64) 0 ++ le8 (8 * msg.length)

/-- Split a byte list into 64-byte blocks (structural recursion on a fuel
bound; each step strictly shortens a non-empty list, so `l.length` fuel
always suffices). -/
def toBlocksF : Nat → List Nat → List (List Nat)
  | _, [] => []
  | 0, l => [l]
  | fuel + 1, l => l.take 64 :: toBlocksF fuel (l.drop 64)

/-- Split a byte list into 64-byte blocks. -/
def toBlocks (l : List Nat) : List (List Nat) := toBlocksF l.length l

/-- The four-word MD5 state after digesting `msg`. -/
def md5words (msg : List Nat) : Nat × Nat × Nat × Nat :=
  (toBlocks (padMsg msg)).foldl md5chunk
    (1732584193, 4023233417, 2562383102, 271733878)

/-- Little-endian 4-byte serialization of a word. -/
def le4 (n : Nat) : List Nat :=
  [n % 256, n / 256 % 256, n / 65536 % 256, n / 16777216 % 256]

/-- The 16-byte MD5 digest of `msg`. -/
def md5bytes (msg : List Nat) : List Nat :=
  le4 (md5words msg).1 ++ le4 (md5words msg).2.1 ++
    le4 (md5words msg).2.2.1 ++ le4 (md5words msg).2.2.2

/-- Lowercase hex digit. -/
def hexDigit (n : Nat) : Char :=
  ("0123456789abcdef").toList.getD n (Char.ofNat 120)

/-- Two lowercase hex characters of one byte. -/
def byteHex (b : Nat) : List Char := [hexDigit (b / 16 % 16), hexDigit (b % 16)]

/-- The `hexdigest()` of `msg`: 32 lowercase hex characters. -/
def md5hex (msg : List Nat) : List Char := (md5bytes msg).flatMap byteHex

theorem md5bytes_length (msg : List Nat) : (md5bytes msg).length = 16 := by
  simp [md5bytes, le4]

theorem byteHex_length (b : Nat) : (byteHex b).length = 2 := rfl

theorem md5hex_length (msg : List Nat) : (md5hex msg).length = 32 := by
  have h : ∀ l : List Nat, (l.flatMap byteHex).length = 2 * l.length := by
    intro l
    induction l with
    | nil => rfl
    | cons b t ih => simp [List.flatMap_cons, ih, byteHex_length]; omega
  rw [md5hex, h, md5bytes_length]

/-! ## Key derivation (`access.py` lines 24-32) -/

/-- UTF-8 bytes of a string; the realm strings of `access.py` are pure
ASCII, where UTF-8 is the identity on code points. -/
def strBytes (s : String) : List Nat := s.toList.map Char.toNat

/-- Realm string for the primary Subversion service (`access.py` line 25). -/
def accessRealm : String := "<https://access-svn.nci.org.au:443> AccessCollab"

/-- Realm string for the secondary `nemo` realm (`access.py` line 30). -/
def nemoRealm : String := "<https://access-svn.nci.org.au:443> nemo"

/-- Cache key of a realm string: `md5(realm).hexdigest()` (`access.py`
lines 26 and 31). -/
def realmKey (realm : String) : List Char := md5hex (strBytes realm)

/-- Cache key of the primary realm (`access.py` line 26). -/
def accessKey : List Char := realmKey accessRealm

/-- Cache key of the `nemo` realm (`access.py` line 31). -/
def nemoKey : List Char := realmKey nemoRealm

/-- Modelled from the spec: a `RealmDescriptor` is the
`{scheme, host, port, realm-label}` record of section 3 of the spec; the
source has no such record, only the two literal realm strings. -/
structure RealmDescriptor where
  scheme : String
  host : String
  port : Nat
  label : String
  deriving DecidableEq

/-- Modelled from the spec: the canonical string form
`"<scheme>://<host>:<port> <realm-label>"` claimed in section 4.1, reading
the angle-bracketed pieces as placeholders. -/
def specCanonicalString (d : RealmDescriptor) : String :=
  d.scheme ++ "://" ++ d.host ++ ":" ++ toString d.port ++ " " ++ d.label

/-- The string shape the source actually hashes: the Subversion realm
format, with literal angle brackets around the URL (both realm literals of
`access.py` instantiate this shape). -/
def codeRealmString (d : RealmDescriptor) : String :=
  "<" ++ d.scheme ++ "://" ++ d.host ++ ":" ++ toString d.port ++ "> " ++
    d.label

/-- Key derivation over descriptors, as the source performs it on its two
realm strings. -/
def deriveKey (d : RealmDescriptor) : List Char :=
  realmKey (codeRealmString d)

/-- The primary realm of `access.py` as a descriptor. -/
def accessDescriptor : RealmDescriptor :=
  ⟨"https", "access-svn.nci.org.au", 443, "AccessCollab"⟩

/-- The secondary realm of `access.py` as a descriptor. -/
def nemoDescriptor : RealmDescriptor :=
  ⟨"https", "access-svn.nci.org.au", 443, "nemo"⟩

set_option maxRecDepth 10000 in
/-- Sanity anchor: the embedded MD5 reproduces the digest of the RFC 1321
test vector `"abc"`. -/
theorem md5hex_abc :
    md5hex (strBytes ("abc")) =
      ("900150983cd24fb0d6963f7d28e17f72").toList := by decide

set_option maxRecDepth 10000 in
/-- Sanity anchor: the concrete cache key of the primary realm. -/
theorem accessKey_value :
    accessKey = ("0384c76bfdca059bc9428ca8eb64a012").toList := by decide

set_option maxRecDepth 10000 in
/-- Sanity anchor: the concrete cache key of the `nemo` realm. -/
theorem nemoKey_value :
    nemoKey = ("07a8d683077d2a8d2003588884c1a0a3").toList := by decide

set_option maxRecDepth 10000 in
/-- Counterexample to claim C8 as stated: the string the code hashes for
the primary realm is not the spec's canonical string form of that realm —
the code's string wraps the URL in literal angle brackets — and the key the
code derives differs from the hash of the spec's canonical string. -/
theorem realmKey_not_spec_canonical :
    specCanonicalString accessDescriptor ≠ accessRealm ∧
      realmKey accessRealm ≠
        realmKey (specCanonicalString accessDescriptor) := by
  constructor
  · decide
  · decide

/-- Claim C8 (amended): the cache key is the MD5 hex digest of the realm
string in Subversion format `"<<scheme>://<host>:<port>> <realm-label>"`
(literal angle brackets around the URL); it is deterministic — equal
descriptors always give identical keys — and of fixed length 32; the two
descriptors of `access.py` instantiate exactly the source's realm
strings. -/
theorem deriveKey_deterministic_fixed_length (d1 d2 : RealmDescriptor)
    (h : d1 = d2) :
    deriveKey d1 = deriveKey d2 ∧ (deriveKey d1).length = 32 ∧
      codeRealmString accessDescriptor = accessRealm ∧
      codeRealmString nemoDescriptor = nemoRealm := by
  refine ⟨by rw [h], md5hex_length _, by decide, by decide⟩

/-- Witness for C8 (amended) at the primary realm descriptor. -/
theorem deriveKey_deterministic_fixed_length_witness :
    deriveKey accessDescriptor = deriveKey accessDescriptor ∧
      (deriveKey accessDescriptor).length = 32 ∧
      codeRealmString accessDescriptor = accessRealm ∧
      codeRealmString nemoDescriptor = nemoRealm :=
  deriveKey_deterministic_fixed_length accessDescriptor accessDescriptor rfl

/-! ## The orchestrator (`setup_mosrs_account` and `main`,
`setup.py` lines 129-218)

The orchestrator is embedded as a pure function from an environment of
external results (host detection, collaborator success flags, the user's
interactive answers) to the list of observable actions it performs plus a
terminal outcome. -/

/-- Console message kinds of `mosrs.message` plus bare `print`. -/
inductive Msg
  | plain (s : String)
  | infoMsg (s : String)
  | warningMsg (s : String)
  | todoMsg (s : String)
  deriving DecidableEq, Repr

/-- Observable actions of one run. -/
inductive Action
  | msg (m : Msg)
  | checkRoseCall
  | startAgentCall
  | promptAccount
  | promptPassword (echo : Bool)
  | presetPassphrase (key : List Char) (pw : String)
  | verifyCall
  | readStartup
  | renameStartup
  | copyStartup
  | writeStartup
  | appendStartup
  deriving DecidableEq, Repr

/-- Warning printed on accessdev (`setup.py` line 172). -/
def accessdevWarn : String :=
  "This version of mosrs-setup is not intended to run on accessdev."

/-- Introductory banner (`setup.py` lines 187-188). -/
def introMsg : String :=
  "This script will set up your account to use Rose and the MOSRS Subversion repositories\n"

/-- Warning printed when `gpg.start_gpg_agent` fails (line 136). -/
def gpgErrorWarn : String := "GPGError in setup_mosrs_account:"

/-- Warning printed when the authentication check fails (line 150). -/
def authFailWarn : String := "Authentication check and update failed."

/-- Credential-recheck guidance (lines 151-155, after `dedent`). -/
def credentialRecheckMsg : String :=
  "\nPlease check your credentials. If you have recently reset your password\nit may take a bit of time for the server to recognise the new password.\n"

/-- Account-request guidance (lines 158-163, after `dedent`). -/
def accountRequestMsg : String :=
  "\nPlease send a request for a MOSRS account to your MOSRS Group Sponsor,\ncopying in the Lead Chief Investigator of your NCI project.\nSee https://my.nci.org.au for information on your project.\n"

/-- Warning for a missing startup script (line 84). -/
def missingStartupWarn : String := "Startup script ~/.bashrc does not exist."

/-- Helpdesk guidance for a missing startup script (line 85). -/
def helpdeskTodo : String := "Please contact the helpdesk."

/-- Re-login guidance after a real patch (lines 121-126, after `dedent`) —
parameterised by `get_host()`. -/
def reloginMsg (host : String) : String :=
  "\nGPG Agent has been added to your startup script. Please log out of " ++
    host ++ "\nthen back in again to make sure it has been activated.\n"

/-- Generic remediation guidance of the `SetupError` handler (line 202). -/
def genericRerunMsg : String :=
  "Once this has been done please run this setup script again."

/-- Success message of the `else` branch (lines 205-216, after `dedent`). -/
def successMsg : String :=
  "\nYou are now able to use Rose and the MOSRS Subversion repositories.\nTo see a list of available experiments run:\n\n    rosie go\n\nYour password will be cached for a maximum of 12 hours.\nTo store your password again run:\n\n    mosrs-auth\n"

/-- Support-contact line of the `finally` block (line 218). -/
def supportMsg : String :=
  "You can ask for help with the ACCESS systems by emailing \"help@nci.org.au\"."

/-- Environment of external results a single run consumes. -/
structure Env where
  onAccessdev : Bool
  host : String
  debugFlag : Bool
  roseOk : Bool
  gpgAgentOk : Bool
  gpgErrArgs : List String
  answers : List (List Char)
  password : String
  authOk : Bool
  startupContent : Option (List Char)

/-- Python whitespace stripped by `str.strip()`. -/
def isSpaceC (c : Char) : Bool :=
  c.toNat = 32 || c.toNat = 9 || c.toNat = 10 || c.toNat = 13 ||
    c.toNat = 11 || c.toNat = 12

/-- Embedding of `str.strip()` on the ASCII answers at play. -/
def trimL (l : List Char) : List Char :=
  ((l.dropWhile isSpaceC).reverse.dropWhile isSpaceC).reverse

/-- Embedding of `str.lower()` on the ASCII answers at play. -/
def lowerC (c : Char) : Char :=
  if 65 ≤ c.toNat && c.toNat ≤ 90 then Char.ofNat (c.toNat + 32) else c

/-- Embedding of `prompt_or_default` (`setup.py` lines 37-46) applied to
one raw response: strip, then substitute the default for the empty
string. -/
def prompt_or_default (response deflt : List Char) : List Char :=
  let r := trimL response
  if r = [] then deflt else r

/-- One iteration of the account prompt (lines 144-145): defaulted answer,
lowercased. -/
def resolveAnswer (response : List Char) : List Char :=
  (prompt_or_default response (("yes").toList)).map lowerC

/-- Membership in the recognised-answer list `['yes', 'no', 'y', 'n']` of
line 143. -/
def isValidAnswer (a : List Char) : Bool :=
  a = ("yes").toList || a = ("no").toList || a = ("y").toList ||
    a = ("n").toList

/-- The re-prompt loop (lines 142-145): emits one `promptAccount` action
per iteration and stops at the first recognised answer; `none` when the
response supply is exhausted (the real program is still blocked reading
input and never reaches any terminal path). -/
def promptLoopRun : List (List Char) → Option (List Action × List Char)
  | [] => none
  | r :: rs =>
    let a := resolveAnswer r
    if isValidAnswer a then some ([Action.promptAccount], a)
    else (promptLoopRun rs).map (fun p => (Action.promptAccount :: p.1, p.2))

/-- Modelled from the spec: `auth.check_or_update` (called at `setup.py`
line 148) is not under `src/`.  Per spec section 4.5 — "prompt for the
password once (not echoed), derive cache keys for each configured realm
(primary service + any secondary realms sharing the password), preset each
via `AgentClient`, then transition to `VerifyingCredentials`" — and the
realm/key/preset pattern visible in `access.py` lines 24-32, it prompts for
the password once without echo, presets the same passphrase under the key
of each configured realm, then performs a single authenticated check; per
spec section 4.3 it makes one attempt per invocation and never retries. -/
def checkOrUpdateActions (pw : String) : List Action :=
  [Action.promptPassword false, Action.presetPassphrase accessKey pw,
   Action.presetPassphrase nemoKey pw, Action.verifyCall]

/-- Exceptions that can escape `setup_mosrs_account` into `main`. -/
inductive SetupExc
  | gpgError
  | setupError
  deriving DecidableEq, Repr

/-- Embedding of `setup_mosrs_account` (`setup.py` lines 129-164): start
the GPG agent (on `GPGError`: warning, the error's args as info lines, and
the exception propagates); run the account prompt loop; on a `y…` answer
run `auth.check_or_update` (on `AuthError`: warning plus credential-recheck
guidance, then `SetupError`); otherwise print the account-request guidance
and raise `SetupError`.  Returns `none` when the prompt loop never receives
a recognised answer. -/
def setup_mosrs_account (e : Env) : Option (List Action × Option SetupExc) :=
  if e.gpgAgentOk then
    match promptLoopRun e.answers with
    | none => none
    | some (pacts, ans) =>
      if startsWithL ans ['y'] then
        if e.authOk then
          some (Action.startAgentCall :: pacts ++
            checkOrUpdateActions e.password, none)
        else
          some (Action.startAgentCall :: pacts ++
            checkOrUpdateActions e.password ++
            [Action.msg (Msg.warningMsg authFailWarn),
             Action.msg (Msg.todoMsg credentialRecheckMsg)],
            some SetupExc.setupError)
      else
        some (Action.startAgentCall :: pacts ++
          [Action.msg (Msg.todoMsg accountRequestMsg)],
          some SetupExc.setupError)
  else
    some ([Action.startAgentCall, Action.msg (Msg.warningMsg gpgErrorWarn)] ++
      e.gpgErrArgs.map (fun a => Action.msg (Msg.infoMsg a)),
      some SetupExc.gpgError)

/-- Observable actions and control flow of `gpg_startup` (`setup.py` lines
57-127): missing file — warning, helpdesk guidance, `SetupError`; marker
present — return after the grep; otherwise back up (rename or copy per the
anchor grep), mutate, print the re-login guidance and raise `SetupError`. -/
def gpg_startup_run (e : Env) : List Action × Option SetupExc :=
  match e.startupContent with
  | none =>
    ([Action.readStartup, Action.msg (Msg.warningMsg missingStartupWarn),
      Action.msg (Msg.todoMsg helpdeskTodo)], some SetupExc.setupError)
  | some content =>
    if hasSub content agentMarker then ([Action.readStartup], none)
    else
      match fsub content boilerplate with
      | some _ =>
        ([Action.readStartup, Action.renameStartup, Action.writeStartup,
          Action.msg (Msg.todoMsg (reloginMsg e.host))],
          some SetupExc.setupError)
      | none =>
        ([Action.readStartup, Action.copyStartup, Action.appendStartup,
          Action.msg (Msg.todoMsg (reloginMsg e.host))],
          some SetupExc.setupError)

/-- Terminal classification of one run (spec section 4.5): `done` — the
success branch (lines 203-216); `needsAction` — a `SetupError` was caught
(lines 201-202); `agentUnavailable` — the `GPGError` early return (lines
194-195); `accessdevExit` — the accessdev early return (lines 171-173). -/
inductive Outcome
  | done
  | needsAction
  | agentUnavailable
  | accessdevExit
  deriving DecidableEq, Repr

/-- Embedding of `main` (`setup.py` lines 166-218).  The accessdev early
return happens before the `try` statement, so the `finally` at line 217
does not run on that path; on every path that enters the `try`, the
support-contact info line is appended exactly once at the end.  Returns
`none` when the run blocks forever inside the prompt loop. -/
def mainRun (e : Env) : Option (List Action × Outcome) :=
  if e.onAccessdev then
    some ([Action.msg (Msg.plain ("")), Action.msg (Msg.warningMsg accessdevWarn)],
      Outcome.accessdevExit)
  else
    let hdr : List Action :=
      [Action.msg (Msg.plain ("")), Action.msg (Msg.plain introMsg)]
    if e.roseOk then
      match setup_mosrs_account e with
      | none => none
      | some (acts, some SetupExc.gpgError) =>
        some (hdr ++ [Action.checkRoseCall] ++ acts ++
          [Action.msg (Msg.infoMsg supportMsg)], Outcome.agentUnavailable)
      | some (acts, some SetupExc.setupError) =>
        some (hdr ++ [Action.checkRoseCall] ++ acts ++
          [Action.msg (Msg.todoMsg genericRerunMsg),
           Action.msg (Msg.infoMsg supportMsg)], Outcome.needsAction)
      | some (acts, none) =>
        match gpg_startup_run e with
        | (gacts, some _) =>
          some (hdr ++ [Action.checkRoseCall] ++ acts ++ gacts ++
            [Action.msg (Msg.todoMsg genericRerunMsg),
             Action.msg (Msg.infoMsg supportMsg)], Outcome.needsAction)
        | (gacts, none) =>
          some (hdr ++ [Action.checkRoseCall] ++ acts ++ gacts ++
            [Action.msg (Msg.infoMsg successMsg),
             Action.msg (Msg.infoMsg supportMsg)], Outcome.done)
    else
      some (hdr ++ [Action.checkRoseCall,
        Action.msg (Msg.todoMsg genericRerunMsg),
        Action.msg (Msg.infoMsg supportMsg)], Outcome.needsAction)

/-! ### Trace observables -/

/-- Whether an action is the support-contact info line. -/
def isSupport : Action → Bool
  | Action.msg (Msg.infoMsg s) => s = supportMsg
  | _ => false

/-- Whether an action is a password prompt. -/
def isPasswordPrompt : Action → Bool
  | Action.promptPassword _ => true
  | _ => false

/-- Whether an action is an agent preset. -/
def isPreset : Action → Bool
  | Action.presetPassphrase _ _ => true
  | _ => false

/-- Whether an action is the credential-verification call. -/
def isVerify : Action → Bool
  | Action.verifyCall => true
  | _ => false

/-- Whether an action reads or mutates the startup file. -/
def isStartupTouch : Action → Bool
  | Action.readStartup => true
  | Action.renameStartup => true
  | Action.copyStartup => true
  | Action.writeStartup => true
  | Action.appendStartup => true
  | _ => false

/-- Number of support-contact info lines in a trace. -/
def countSupport (tr : List Action) : Nat := tr.countP isSupport

/-- Number of password prompts in a trace. -/
def countPasswordPrompts (tr : List Action) : Nat := tr.countP isPasswordPrompt

/-- Number of agent presets in a trace. -/
def countPresets (tr : List Action) : Nat := tr.countP isPreset

/-- Number of verification calls in a trace. -/
def countVerify (tr : List Action) : Nat := tr.countP isVerify

/-- Number of startup-file accesses in a trace. -/
def countStartupTouch (tr : List Action) : Nat := tr.countP isStartupTouch

theorem promptLoopRun_acts (l : List (List Char)) (pacts : List Action)
    (ans : List Char) (h : promptLoopRun l = some (pacts, ans)) :
    ∀ a ∈ pacts, a = Action.promptAccount := by
  induction l generalizing pacts ans with
  | nil => simp [promptLoopRun] at h
  | cons r rs ih =>
    simp only [promptLoopRun] at h
    split at h
    · cases h
      simp
    · cases hm : promptLoopRun rs with
      | none => simp [hm] at h
      | some p =>
        obtain ⟨pacts2, ans2⟩ := p
        have h2 : Action.promptAccount :: pacts2 = pacts ∧ ans2 = ans := by
          simpa [hm] using h
        obtain ⟨hp, ha⟩ := h2
        subst hp
        subst ha
        intro a ha
        rcases List.mem_cons.mp ha with rfl | ha2
        · rfl
        · exact ih pacts2 ans2 hm a ha2

theorem promptLoopRun_valid (l : List (List Char)) (pacts : List Action)
    (ans : List Char) (h : promptLoopRun l = some (pacts, ans)) :
    isValidAnswer ans = true := by
  induction l generalizing pacts ans with
  | nil => simp [promptLoopRun] at h
  | cons r rs ih =>
    simp only [promptLoopRun] at h
    split at h
    · rename_i hv
      cases h
      exact hv
    · cases hm : promptLoopRun rs with
      | none => simp [hm] at h
      | some p =>
        obtain ⟨pacts2, ans2⟩ := p
        have h2 : Action.promptAccount :: pacts2 = pacts ∧ ans2 = ans := by
          simpa [hm] using h
        obtain ⟨-, ha⟩ := h2
        subst ha
        exact ih pacts2 ans2 hm

theorem countP_pacts_zero (p : Action → Bool)
    (hp : p Action.promptAccount = false) (l : List (List Char))
    (pacts : List Action) (ans : List Char)
    (h : promptLoopRun l = some (pacts, ans)) : pacts.countP p = 0 := by
  rw [List.countP_eq_zero]
  intro a ha
  rw [promptLoopRun_acts l pacts ans h a ha, hp]
  simp

theorem countSupport_checkOrUpdate (pw : String) :
    countSupport (checkOrUpdateActions pw) = 0 := rfl

theorem countSupport_infoArgs (args : List String)
    (h : supportMsg ∉ args) :
    countSupport (args.map (fun a => Action.msg (Msg.infoMsg a))) = 0 := by
  induction args with
  | nil => rfl
  | cons a t ih =>
    have ha : a ≠ supportMsg := fun hc => h (by simp [hc])
    have ht : supportMsg ∉ t := fun hc => h (by simp [hc])
    simp only [List.map_cons, countSupport, List.countP_cons] at ih ⊢
    simp [isSupport, ha, ih ht, countSupport]

theorem some_pair_inv {α β : Type} {a a2 : α} {b b2 : β}
    (h : some (a, b) = some (a2, b2)) : a = a2 ∧ b = b2 := by
  injection h with h2
  injection h2 with h3 h4
  exact ⟨h3, h4⟩

theorem countSupport_setup_acts (e : Env) (acts : List Action)
    (x : Option SetupExc) (hargs : supportMsg ∉ e.gpgErrArgs)
    (h : setup_mosrs_account e = some (acts, x)) : countSupport acts = 0 := by
  by_cases hgpg : e.gpgAgentOk
  · cases hans : promptLoopRun e.answers with
    | none => simp [setup_mosrs_account, hgpg, hans] at h
    | some p =>
      obtain ⟨pacts, ans⟩ := p
      have hz : pacts.countP isSupport = 0 :=
        countP_pacts_zero isSupport rfl e.answers pacts ans hans
      by_cases hyes : startsWithL ans ['y']
      · by_cases hauth : e.authOk
        · have he : setup_mosrs_account e =
              some (Action.startAgentCall ::
                (pacts ++ checkOrUpdateActions e.password), none) := by
            simp [setup_mosrs_account, hgpg, hans, hyes, hauth]
          rw [he] at h
          obtain ⟨h1, -⟩ := some_pair_inv h
          subst h1
          simp [countSupport, List.countP_cons, List.countP_append,
            checkOrUpdateActions, isSupport, hz]
        · have he : setup_mosrs_account e =
              some (Action.startAgentCall ::
                (pacts ++ (checkOrUpdateActions e.password ++
                  [Action.msg (Msg.warningMsg authFailWarn),
                   Action.msg (Msg.todoMsg credentialRecheckMsg)])),
                some SetupExc.setupError) := by
            simp [setup_mosrs_account, hgpg, hans, hyes, hauth]
          rw [he] at h
          obtain ⟨h1, -⟩ := some_pair_inv h
          subst h1
          simp [countSupport, List.countP_cons, List.countP_append,
            checkOrUpdateActions, isSupport, hz]
      · have he : setup_mosrs_account e =
            some (Action.startAgentCall ::
              (pacts ++ [Action.msg (Msg.todoMsg accountRequestMsg)]),
              some SetupExc.setupError) := by
          simp [setup_mosrs_account, hgpg, hans, hyes]
        rw [he] at h
        obtain ⟨h1, -⟩ := some_pair_inv h
        subst h1
        simp [countSupport, List.countP_cons, List.countP_append,
          isSupport, hz]
  · have he : setup_mosrs_account e =
        some ([Action.startAgentCall,
          Action.msg (Msg.warningMsg gpgErrorWarn)] ++
          e.gpgErrArgs.map (fun a => Action.msg (Msg.infoMsg a)),
          some SetupExc.gpgError) := by
      simp [setup_mosrs_account, hgpg]
    rw [he] at h
    obtain ⟨h1, -⟩ := some_pair_inv h
    subst h1
    have hi : (e.gpgErrArgs.map
        (fun a => Action.msg (Msg.infoMsg a))).countP isSupport = 0 :=
      countSupport_infoArgs e.gpgErrArgs hargs
    simp [countSupport, List.countP_cons, List.countP_append, isSupport, hi]

theorem countSupport_gpg_acts (e : Env) :
    countSupport (gpg_startup_run e).1 = 0 := by
  unfold gpg_startup_run
  cases e.startupContent with
  | none => rfl
  | some content =>
    by_cases hm : hasSub content agentMarker
    · simp [hm, countSupport, isSupport]
    · simp only [Bool.not_eq_true] at hm
      cases hb : fsub content boilerplate with
      | some i => simp [hm, hb, countSupport, isSupport, List.countP_cons]
      | none => simp [hm, hb, countSupport, isSupport, List.countP_cons]

/-- Counterexample to claim C2 as stated: the accessdev early exit (a
terminal path of `main`) returns before the `try`/`finally`, so its trace
contains no support-contact line at all. -/
theorem support_missing_on_accessdev :
    mainRun ⟨true, "accessdev", false, true, true, [], [], "pw", true, none⟩ =
      some ([Action.msg (Msg.plain ("")),
        Action.msg (Msg.warningMsg accessdevWarn)], Outcome.accessdevExit) ∧
    countSupport [Action.msg (Msg.plain ("")),
      Action.msg (Msg.warningMsg accessdevWarn)] = 0 := by
  exact ⟨rfl, rfl⟩

/-- Claim C2 (amended): on every terminal path of `main` other than the
accessdev early exit — which returns before the `try`/`finally` and prints
no support line — the support-contact info line is printed exactly once
(assuming the opaque `GPGError` argument strings are not themselves the
support line). -/
theorem support_contact_exactly_once (e : Env) (tr : List Action)
    (o : Outcome) (hacc : e.onAccessdev = false)
    (hargs : supportMsg ∉ e.gpgErrArgs)
    (h : mainRun e = some (tr, o)) : countSupport tr = 1 := by
  by_cases hrose : e.roseOk
  · cases hs : setup_mosrs_account e with
    | none => simp [mainRun, hacc, hrose, hs] at h
    | some p =>
      obtain ⟨acts, exc⟩ := p
      have hz : acts.countP isSupport = 0 :=
        countSupport_setup_acts e acts exc hargs hs
      cases exc with
      | none =>
        cases hg : gpg_startup_run e with
        | mk gacts gexc =>
          have hgz : gacts.countP isSupport = 0 := by
            have h0 := countSupport_gpg_acts e
            rw [hg] at h0
            exact h0
          cases gexc with
          | none =>
            have he : mainRun e =
                some ([Action.msg (Msg.plain ("")),
                  Action.msg (Msg.plain introMsg)] ++
                  [Action.checkRoseCall] ++ acts ++ gacts ++
                  [Action.msg (Msg.infoMsg successMsg),
                   Action.msg (Msg.infoMsg supportMsg)], Outcome.done) := by
              simp [mainRun, hacc, hrose, hs, hg]
            rw [he] at h
            obtain ⟨h1, -⟩ := some_pair_inv h
            subst h1
            simp [countSupport, List.countP_append, List.countP_cons, hz,
              hgz, isSupport, successMsg, supportMsg]
          | some ge =>
            have he : mainRun e =
                some ([Action.msg (Msg.plain ("")),
                  Action.msg (Msg.plain introMsg)] ++
                  [Action.checkRoseCall] ++ acts ++ gacts ++
                  [Action.msg (Msg.todoMsg genericRerunMsg),
                   Action.msg (Msg.infoMsg supportMsg)],
                  Outcome.needsAction) := by
              simp [mainRun, hacc, hrose, hs, hg]
            rw [he] at h
            obtain ⟨h1, -⟩ := some_pair_inv h
            subst h1
            simp [countSupport, List.countP_append, List.countP_cons, hz,
              hgz, isSupport, supportMsg]
      | some se =>
        cases se with
        | gpgError =>
          have he : mainRun e =
              some ([Action.msg (Msg.plain ("")),
                Action.msg (Msg.plain introMsg)] ++
                [Action.checkRoseCall] ++ acts ++
                [Action.msg (Msg.infoMsg supportMsg)],
                Outcome.agentUnavailable) := by
            simp [mainRun, hacc, hrose, hs]
          rw [he] at h
          obtain ⟨h1, -⟩ := some_pair_inv h
          subst h1
          simp [countSupport, List.countP_append, List.countP_cons, hz,
            isSupport, supportMsg]
        | setupError =>
          have he : mainRun e =
              some ([Action.msg (Msg.plain ("")),
                Action.msg (Msg.plain introMsg)] ++
                [Action.checkRoseCall] ++ acts ++
                [Action.msg (Msg.todoMsg genericRerunMsg),
                 Action.msg (Msg.infoMsg supportMsg)],
                Outcome.needsAction) := by
            simp [mainRun, hacc, hrose, hs]
          rw [he] at h
          obtain ⟨h1, -⟩ := some_pair_inv h
          subst h1
          simp [countSupport, List.countP_append, List.countP_cons, hz,
            isSupport, supportMsg]
  · have he : mainRun e =
        some ([Action.msg (Msg.plain ("")), Action.msg (Msg.plain introMsg)] ++
          [Action.checkRoseCall, Action.msg (Msg.todoMsg genericRerunMsg),
           Action.msg (Msg.infoMsg supportMsg)], Outcome.needsAction) := by
      simp [mainRun, hacc, hrose]
    rw [he] at h
    obtain ⟨h1, -⟩ := some_pair_inv h
    subst h1
    simp [countSupport, List.countP_append, List.countP_cons, isSupport,
      supportMsg]

/-- Witness for C2 (amended): a failing rose check still prints the
support line exactly once. -/
theorem support_contact_exactly_once_witness :
    countSupport
      ([Action.msg (Msg.plain ("")), Action.msg (Msg.plain introMsg)] ++
        [Action.checkRoseCall, Action.msg (Msg.todoMsg genericRerunMsg),
         Action.msg (Msg.infoMsg supportMsg)]) = 1 :=
  support_contact_exactly_once
    ⟨false, "h", false, false, true, [], [], "pw", true, none⟩ _
    Outcome.needsAction rfl (by simp) rfl

theorem countP_gpg_acts (p : Action → Bool) (e : Env)
    (h1 : p Action.readStartup = false) (h2 : p Action.renameStartup = false)
    (h3 : p Action.copyStartup = false) (h4 : p Action.appendStartup = false)
    (h5 : p Action.writeStartup = false)
    (h6 : ∀ m, p (Action.msg m) = false) :
    (gpg_startup_run e).1.countP p = 0 := by
  unfold gpg_startup_run
  cases e.startupContent with
  | none => simp [List.countP_cons, h1, h6]
  | some content =>
    by_cases hm : hasSub content agentMarker
    · simp [hm, List.countP_cons, h1]
    · simp only [Bool.not_eq_true] at hm
      cases hb : fsub content boilerplate with
      | some i => simp [hm, hb, List.countP_cons, h1, h2, h5, h6]
      | none => simp [hm, hb, List.countP_cons, h1, h3, h4, h6]

/-- Counterexample to claim C3 as stated: on a concrete declined-account
run the trace does contain the generic "run this setup script again"
guidance — the `SetupError` raised on the "no" path is caught by the outer
handler of `main` (line 201-202), so this path does not return early
without it. -/
theorem account_decline_prints_generic :
    mainRun ⟨false, "vdi", false, true, true, [], [("No").toList], "pw", true,
        some []⟩ =
      some ([Action.msg (Msg.plain ("")), Action.msg (Msg.plain introMsg),
        Action.checkRoseCall, Action.startAgentCall, Action.promptAccount,
        Action.msg (Msg.todoMsg accountRequestMsg),
        Action.msg (Msg.todoMsg genericRerunMsg),
        Action.msg (Msg.infoMsg supportMsg)], Outcome.needsAction) ∧
    Action.msg (Msg.todoMsg genericRerunMsg) ∈
      [Action.msg (Msg.plain ("")), Action.msg (Msg.plain introMsg),
        Action.checkRoseCall, Action.startAgentCall, Action.promptAccount,
        Action.msg (Msg.todoMsg accountRequestMsg),
        Action.msg (Msg.todoMsg genericRerunMsg),
        Action.msg (Msg.infoMsg supportMsg)] := by
  constructor
  · rfl
  · simp

/-- Claim C3 (amended): when the user declines the account-ownership
prompt, the run terminates in `NeedsAction` with the account-request
guidance, no password prompt, preset or verification call is performed —
but, the `SetupError` of this path being caught by the generic handler of
`main`, the generic "run this setup script again" guidance is printed as
well (only the `AgentUnavailable` path skips it). -/
theorem account_decline_needsAction (e : Env) (tr : List Action)
    (o : Outcome) (pacts : List Action) (ans : List Char)
    (hacc : e.onAccessdev = false) (hrose : e.roseOk = true)
    (hgpg : e.gpgAgentOk = true)
    (hans : promptLoopRun e.answers = some (pacts, ans))
    (hno : startsWithL ans ['y'] = false)
    (h : mainRun e = some (tr, o)) :
    o = Outcome.needsAction ∧
    Action.msg (Msg.todoMsg accountRequestMsg) ∈ tr ∧
    countPasswordPrompts tr = 0 ∧ countPresets tr = 0 ∧
    countVerify tr = 0 ∧
    Action.msg (Msg.todoMsg genericRerunMsg) ∈ tr := by
  have hsetup : setup_mosrs_account e =
      some (Action.startAgentCall ::
        (pacts ++ [Action.msg (Msg.todoMsg accountRequestMsg)]),
        some SetupExc.setupError) := by
    simp [setup_mosrs_account, hgpg, hans, hno]
  have he : mainRun e =
      some ([Action.msg (Msg.plain ("")), Action.msg (Msg.plain introMsg)] ++
        [Action.checkRoseCall] ++
        (Action.startAgentCall ::
          (pacts ++ [Action.msg (Msg.todoMsg accountRequestMsg)])) ++
        [Action.msg (Msg.todoMsg genericRerunMsg),
         Action.msg (Msg.infoMsg supportMsg)], Outcome.needsAction) := by
    simp [mainRun, hacc, hrose, hsetup]
  rw [he] at h
  obtain ⟨h1, h2⟩ := some_pair_inv h
  subst h1
  subst h2
  refine ⟨rfl, by simp, ?_, ?_, ?_, by simp⟩
  · have hz : pacts.countP isPasswordPrompt = 0 :=
      countP_pacts_zero isPasswordPrompt rfl e.answers pacts ans hans
    simp [countPasswordPrompts, List.countP_append, List.countP_cons,
      isPasswordPrompt, hz]
  · have hz : pacts.countP isPreset = 0 :=
      countP_pacts_zero isPreset rfl e.answers pacts ans hans
    simp [countPresets, List.countP_append, List.countP_cons, isPreset, hz]
  · have hz : pacts.countP isVerify = 0 :=
      countP_pacts_zero isVerify rfl e.answers pacts ans hans
    simp [countVerify, List.countP_append, List.countP_cons, isVerify, hz]

/-- Witness for C3 (amended) on a concrete declined-account run. -/
theorem account_decline_needsAction_witness :
    Outcome.needsAction = Outcome.needsAction ∧
    Action.msg (Msg.todoMsg accountRequestMsg) ∈
      ([Action.msg (Msg.plain ("")), Action.msg (Msg.plain introMsg)] ++
        [Action.checkRoseCall] ++
        (Action.startAgentCall ::
          ([Action.promptAccount] ++
            [Action.msg (Msg.todoMsg accountRequestMsg)])) ++
        [Action.msg (Msg.todoMsg genericRerunMsg),
         Action.msg (Msg.infoMsg supportMsg)]) ∧
    countPasswordPrompts
      ([Action.msg (Msg.plain ("")), Action.msg (Msg.plain introMsg)] ++
        [Action.checkRoseCall] ++
        (Action.startAgentCall ::
          ([Action.promptAccount] ++
            [Action.msg (Msg.todoMsg accountRequestMsg)])) ++
        [Action.msg (Msg.todoMsg genericRerunMsg),
         Action.msg (Msg.infoMsg supportMsg)]) = 0 ∧
    countPresets
      ([Action.msg (Msg.plain ("")), Action.msg (Msg.plain introMsg)] ++
        [Action.checkRoseCall] ++
        (Action.startAgentCall ::
          ([Action.promptAccount] ++
            [Action.msg (Msg.todoMsg accountRequestMsg)])) ++
        [Action.msg (Msg.todoMsg genericRerunMsg),
         Action.msg (Msg.infoMsg supportMsg)]) = 0 ∧
    countVerify
      ([Action.msg (Msg.plain ("")), Action.msg (Msg.plain introMsg)] ++
        [Action.checkRoseCall] ++
        (Action.startAgentCall ::
          ([Action.promptAccount] ++
            [Action.msg (Msg.todoMsg accountRequestMsg)])) ++
        [Action.msg (Msg.todoMsg genericRerunMsg),
         Action.msg (Msg.infoMsg supportMsg)]) = 0 ∧
    Action.msg (Msg.todoMsg genericRerunMsg) ∈
      ([Action.msg (Msg.plain ("")), Action.msg (Msg.plain introMsg)] ++
        [Action.checkRoseCall] ++
        (Action.startAgentCall ::
          ([Action.promptAccount] ++
            [Action.msg (Msg.todoMsg accountRequestMsg)])) ++
        [Action.msg (Msg.todoMsg genericRerunMsg),
         Action.msg (Msg.infoMsg supportMsg)]) :=
  account_decline_needsAction
    ⟨false, "vdi2", false, true, true, [], [("no").toList], "pw", true, some []⟩
    _ _ [Action.promptAccount] (("no").toList) rfl rfl rfl (by decide)
    (by decide) rfl

/-- Claim C6: when credential verification fails with `AuthError`, the run
terminates in `NeedsAction` with the credential-recheck guidance, the
startup file is neither read nor modified, and the verification call is
made exactly once — never retried. -/
theorem auth_failure_needsAction (e : Env) (tr : List Action)
    (o : Outcome) (pacts : List Action) (ans : List Char)
    (hacc : e.onAccessdev = false) (hrose : e.roseOk = true)
    (hgpg : e.gpgAgentOk = true)
    (hans : promptLoopRun e.answers = some (pacts, ans))
    (hyes : startsWithL ans ['y'] = true) (hauth : e.authOk = false)
    (h : mainRun e = some (tr, o)) :
    o = Outcome.needsAction ∧
    Action.msg (Msg.todoMsg credentialRecheckMsg) ∈ tr ∧
    countVerify tr = 1 ∧ countStartupTouch tr = 0 := by
  have hsetup : setup_mosrs_account e =
      some (Action.startAgentCall ::
        (pacts ++ (checkOrUpdateActions e.password ++
          [Action.msg (Msg.warningMsg authFailWarn),
           Action.msg (Msg.todoMsg credentialRecheckMsg)])),
        some SetupExc.setupError) := by
    simp [setup_mosrs_account, hgpg, hans, hyes, hauth]
  have he : mainRun e =
      some ([Action.msg (Msg.plain ("")), Action.msg (Msg.plain introMsg)] ++
        [Action.checkRoseCall] ++
        (Action.startAgentCall ::
          (pacts ++ (checkOrUpdateActions e.password ++
            [Action.msg (Msg.warningMsg authFailWarn),
             Action.msg (Msg.todoMsg credentialRecheckMsg)]))) ++
        [Action.msg (Msg.todoMsg genericRerunMsg),
         Action.msg (Msg.infoMsg supportMsg)], Outcome.needsAction) := by
    simp [mainRun, hacc, hrose, hsetup]
  rw [he] at h
  obtain ⟨h1, h2⟩ := some_pair_inv h
  subst h1
  subst h2
  refine ⟨rfl, by simp, ?_, ?_⟩
  · have hz : pacts.countP isVerify = 0 :=
      countP_pacts_zero isVerify rfl e.answers pacts ans hans
    simp [countVerify, List.countP_append, List.countP_cons, isVerify,
      checkOrUpdateActions, hz]
  · have hz : pacts.countP isStartupTouch = 0 :=
      countP_pacts_zero isStartupTouch rfl e.answers pacts ans hans
    simp [countStartupTouch, List.countP_append, List.countP_cons,
      isStartupTouch, checkOrUpdateActions, hz]

/-- Witness for C6 on a concrete failed-verification run. -/
theorem auth_failure_needsAction_witness :
    Outcome.needsAction = Outcome.needsAction ∧
    Action.msg (Msg.todoMsg credentialRecheckMsg) ∈
      ([Action.msg (Msg.plain ("")), Action.msg (Msg.plain introMsg)] ++
        [Action.checkRoseCall] ++
        (Action.startAgentCall ::
          ([Action.promptAccount] ++ (checkOrUpdateActions ("pw") ++
            [Action.msg (Msg.warningMsg authFailWarn),
             Action.msg (Msg.todoMsg credentialRecheckMsg)]))) ++
        [Action.msg (Msg.todoMsg genericRerunMsg),
         Action.msg (Msg.infoMsg supportMsg)]) ∧
    countVerify
      ([Action.msg (Msg.plain ("")), Action.msg (Msg.plain introMsg)] ++
        [Action.checkRoseCall] ++
        (Action.startAgentCall ::
          ([Action.promptAccount] ++ (checkOrUpdateActions ("pw") ++
            [Action.msg (Msg.warningMsg authFailWarn),
             Action.msg (Msg.todoMsg credentialRecheckMsg)]))) ++
        [Action.msg (Msg.todoMsg genericRerunMsg),
         Action.msg (Msg.infoMsg supportMsg)]) = 1 ∧
    countStartupTouch
      ([Action.msg (Msg.plain ("")), Action.msg (Msg.plain introMsg)] ++
        [Action.checkRoseCall] ++
        (Action.startAgentCall ::
          ([Action.promptAccount] ++ (checkOrUpdateActions ("pw") ++
            [Action.msg (Msg.warningMsg authFailWarn),
             Action.msg (Msg.todoMsg credentialRecheckMsg)]))) ++
        [Action.msg (Msg.todoMsg genericRerunMsg),
         Action.msg (Msg.infoMsg supportMsg)]) = 0 :=
  auth_failure_needsAction
    ⟨false, "vdi", false, true, true, [], [("Y").toList], "pw", false,
      some []⟩
    _ _ [Action.promptAccount] (("y").toList) rfl rfl rfl (by decide)
    (by decide) (by decide) rfl

/-- Claim C7: on a "yes" answer the run prompts for the password exactly
once (without echo), presets the same passphrase under the cache key of
each configured realm (primary `AccessCollab` service and the secondary
`nemo` realm), and only then performs the credential-verification call —
the trace contains the contiguous segment prompt, preset, preset, verify,
and no other password prompt anywhere. -/
theorem password_once_presets_then_verify (e : Env) (tr : List Action)
    (o : Outcome) (pacts : List Action) (ans : List Char)
    (hacc : e.onAccessdev = false) (hrose : e.roseOk = true)
    (hgpg : e.gpgAgentOk = true)
    (hans : promptLoopRun e.answers = some (pacts, ans))
    (hyes : startsWithL ans ['y'] = true)
    (h : mainRun e = some (tr, o)) :
    countPasswordPrompts tr = 1 ∧
    ∃ pre post, tr = pre ++
      [Action.promptPassword false,
       Action.presetPassphrase accessKey e.password,
       Action.presetPassphrase nemoKey e.password,
       Action.verifyCall] ++ post := by
  have hzp : pacts.countP isPasswordPrompt = 0 :=
    countP_pacts_zero isPasswordPrompt rfl e.answers pacts ans hans
  by_cases hauth : e.authOk
  · have hsetup : setup_mosrs_account e =
        some (Action.startAgentCall ::
          (pacts ++ checkOrUpdateActions e.password), none) := by
      simp [setup_mosrs_account, hgpg, hans, hyes, hauth]
    cases hg : gpg_startup_run e with
    | mk gacts gexc =>
      have hgzp : gacts.countP isPasswordPrompt = 0 := by
        have h0 := countP_gpg_acts isPasswordPrompt e rfl rfl rfl rfl rfl
          (fun m => rfl)
        rw [hg] at h0
        exact h0
      cases gexc with
      | none =>
        have he : mainRun e =
            some ([Action.msg (Msg.plain ("")),
              Action.msg (Msg.plain introMsg)] ++
              [Action.checkRoseCall] ++
              (Action.startAgentCall ::
                (pacts ++ checkOrUpdateActions e.password)) ++ gacts ++
              [Action.msg (Msg.infoMsg successMsg),
               Action.msg (Msg.infoMsg supportMsg)], Outcome.done) := by
          simp [mainRun, hacc, hrose, hsetup, hg]
        rw [he] at h
        obtain ⟨h1, -⟩ := some_pair_inv h
        subst h1
        constructor
        · simp [countPasswordPrompts, List.countP_append, List.countP_cons,
            isPasswordPrompt, checkOrUpdateActions, hzp, hgzp]
        · refine ⟨[Action.msg (Msg.plain ("")),
            Action.msg (Msg.plain introMsg), Action.checkRoseCall,
            Action.startAgentCall] ++ pacts,
            gacts ++ [Action.msg (Msg.infoMsg successMsg),
              Action.msg (Msg.infoMsg supportMsg)], ?_⟩
          simp [checkOrUpdateActions]
      | some ge =>
        have he : mainRun e =
            some ([Action.msg (Msg.plain ("")),
              Action.msg (Msg.plain introMsg)] ++
              [Action.checkRoseCall] ++
              (Action.startAgentCall ::
                (pacts ++ checkOrUpdateActions e.password)) ++ gacts ++
              [Action.msg (Msg.todoMsg genericRerunMsg),
               Action.msg (Msg.infoMsg supportMsg)],
              Outcome.needsAction) := by
          simp [mainRun, hacc, hrose, hsetup, hg]
        rw [he] at h
        obtain ⟨h1, -⟩ := some_pair_inv h
        subst h1
        constructor
        · simp [countPasswordPrompts, List.countP_append, List.countP_cons,
            isPasswordPrompt, checkOrUpdateActions, hzp, hgzp]
        · refine ⟨[Action.msg (Msg.plain ("")),
            Action.msg (Msg.plain introMsg), Action.checkRoseCall,
            Action.startAgentCall] ++ pacts,
            gacts ++ [Action.msg (Msg.todoMsg genericRerunMsg),
              Action.msg (Msg.infoMsg supportMsg)], ?_⟩
          simp [checkOrUpdateActions]
  · have hsetup : setup_mosrs_account e =
        some (Action.startAgentCall ::
          (pacts ++ (checkOrUpdateActions e.password ++
            [Action.msg (Msg.warningMsg authFailWarn),
             Action.msg (Msg.todoMsg credentialRecheckMsg)])),
          some SetupExc.setupError) := by
      simp [setup_mosrs_account, hgpg, hans, hyes, hauth]
    have he : mainRun e =
        some ([Action.msg (Msg.plain ("")), Action.msg (Msg.plain introMsg)] ++
          [Action.checkRoseCall] ++
          (Action.startAgentCall ::
            (pacts ++ (checkOrUpdateActions e.password ++
              [Action.msg (Msg.warningMsg authFailWarn),
               Action.msg (Msg.todoMsg credentialRecheckMsg)]))) ++
          [Action.msg (Msg.todoMsg genericRerunMsg),
           Action.msg (Msg.infoMsg supportMsg)], Outcome.needsAction) := by
      simp [mainRun, hacc, hrose, hsetup]
    rw [he] at h
    obtain ⟨h1, -⟩ := some_pair_inv h
    subst h1
    constructor
    · simp [countPasswordPrompts, List.countP_append, List.countP_cons,
        isPasswordPrompt, checkOrUpdateActions, hzp]
    · refine ⟨[Action.msg (Msg.plain ("")), Action.msg (Msg.plain introMsg),
        Action.checkRoseCall, Action.startAgentCall] ++ pacts,
        [Action.msg (Msg.warningMsg authFailWarn),
         Action.msg (Msg.todoMsg credentialRecheckMsg),
         Action.msg (Msg.todoMsg genericRerunMsg),
         Action.msg (Msg.infoMsg supportMsg)], ?_⟩
      simp [checkOrUpdateActions]

set_option maxRecDepth 10000 in
/-- Witness for C7: a run that re-prompts once, then takes the default
"yes", with an already-patched startup file. -/
theorem password_once_presets_then_verify_witness :
    countPasswordPrompts
      ([Action.msg (Msg.plain ("")), Action.msg (Msg.plain introMsg)] ++
        [Action.checkRoseCall] ++
        (Action.startAgentCall ::
          ([Action.promptAccount, Action.promptAccount] ++
            checkOrUpdateActions ("hunter2"))) ++ [Action.readStartup] ++
        [Action.msg (Msg.infoMsg successMsg),
         Action.msg (Msg.infoMsg supportMsg)]) = 1 ∧
    ∃ pre post,
      ([Action.msg (Msg.plain ("")), Action.msg (Msg.plain introMsg)] ++
        [Action.checkRoseCall] ++
        (Action.startAgentCall ::
          ([Action.promptAccount, Action.promptAccount] ++
            checkOrUpdateActions ("hunter2"))) ++ [Action.readStartup] ++
        [Action.msg (Msg.infoMsg successMsg),
         Action.msg (Msg.infoMsg supportMsg)]) = pre ++
        [Action.promptPassword false,
         Action.presetPassphrase accessKey "hunter2",
         Action.presetPassphrase nemoKey "hunter2",
         Action.verifyCall] ++ post :=
  password_once_presets_then_verify
    ⟨false, "vdi", false, true, true, [], [("maybe").toList, []], "hunter2",
      true, some sentinelLine⟩
    _ Outcome.done [Action.promptAccount, Action.promptAccount]
    (("yes").toList) rfl rfl rfl (by decide) (by decide) (by decide)

/-- Claim C9: the yes/no account prompt accepts `"Y"`, `"yes"`, `"n"` and
`"No"` case-insensitively, resolves empty input to the displayed default
`"yes"`, rejects `"maybe"` and then asks again, and in general only ever
returns a recognised answer, re-prompting until one is given. -/
theorem prompt_answer_parsing :
    (resolveAnswer (("Y").toList) = ("y").toList ∧
      isValidAnswer (("y").toList) = true) ∧
    (resolveAnswer (("yes").toList) = ("yes").toList ∧
      isValidAnswer (("yes").toList) = true) ∧
    (resolveAnswer (("n").toList) = ("n").toList ∧
      isValidAnswer (("n").toList) = true) ∧
    (resolveAnswer (("No").toList) = ("no").toList ∧
      isValidAnswer (("no").toList) = true) ∧
    resolveAnswer [] = ("yes").toList ∧
    isValidAnswer (resolveAnswer (("maybe").toList)) = false ∧
    (∀ rs, promptLoopRun (("maybe").toList :: rs) =
      (promptLoopRun rs).map
        (fun p => (Action.promptAccount :: p.1, p.2))) ∧
    (∀ inputs pacts ans, promptLoopRun inputs = some (pacts, ans) →
      isValidAnswer ans = true) := by
  refine ⟨by decide, by decide, by decide, by decide, by decide, by decide,
    ?_, fun inputs pacts ans h => promptLoopRun_valid inputs pacts ans h⟩
  intro rs
  simp only [promptLoopRun]
  rw [if_neg (by decide)]

/-- Witness for C9: the re-prompt hypothesis discharged on the concrete
input list `["maybe", "Y"]`. -/
theorem prompt_answer_parsing_witness :
    isValidAnswer (("y").toList) = true :=
  prompt_answer_parsing.2.2.2.2.2.2.2 [("maybe").toList, ("Y").toList]
    [Action.promptAccount, Action.promptAccount] (("y").toList)
    (by decide)

end Mosrs
